import Mathlib

/-!
Shallow embedding of the hyperstack client library (`hyperstack/__init__.py`
and the CLI front-end `run.py`).

Every client operation is modelled as a pure function from its Python
arguments to `Except Err Request`: `Except.error` is the `ValueError` /
`pydantic.ValidationError` raised synchronously before any network activity,
and `Except.ok r` means exactly one HTTP request `r` is issued.  Python
strings are Lean `String`s; Python `str.strip` is `pyStrip`; Python
truthiness of an optional string is `pyTruthy`.
-/

/-- Characters stripped by Python `str.strip()` (the ASCII whitespace set). -/
def isPySpace (c : Char) : Bool :=
  c = ' ' || c = '\t' || c = '\n' || c = '\r' || c = '\x0b' || c = '\x0c'

/-- Python `s.strip()`: remove leading and trailing whitespace characters. -/
def pyStrip (s : String) : String :=
  ⟨((s.data.dropWhile isPySpace).reverse.dropWhile isPySpace).reverse⟩

/-- Python `not v or not v.strip()` for a string `v`: true when `v` is empty
or consists only of whitespace. -/
def isBlank (s : String) : Bool :=
  s == "" || pyStrip s == ""

/-- Python `s.startswith(p)` on `List Char` representations. -/
def listStartsWith : List Char → List Char → Bool
  | _, [] => true
  | [], _ :: _ => false
  | a :: as, b :: bs => a == b && listStartsWith as bs

/-- Python `s.startswith(p)`. -/
def pyStartswith (s p : String) : Bool :=
  listStartsWith s.data p.data

/-- Python `s.endswith(p)`. -/
def pyEndswith (s p : String) : Bool :=
  listStartsWith s.data.reverse p.data.reverse

/-- Errors raised locally by the library before any network call:
`invalidArgument` models the `ValueError` / `pydantic.ValidationError`
validation failures, `configError` models the CLI `parser.error` exit for a
missing API key. -/
inductive Err where
  | invalidArgument (msg : String)
  | configError (msg : String)
deriving DecidableEq, Repr

/-- HTTP method of the single outgoing request of an operation. -/
inductive Method where
  | get
  | post
  | put
  | delete
deriving DecidableEq, Repr

/-- JSON scalar values appearing in query parameters and request bodies. -/
inductive JsonValue where
  | str (s : String)
  | int (n : Int)
  | bool (b : Bool)
deriving DecidableEq, Repr

/-- The single HTTP request an operation issues when validation passes. -/
structure Request where
  method : Method
  path : String
  params : List (String × JsonValue)
  body : Option (List (String × JsonValue))
deriving DecidableEq, Repr

/-- True exactly on `Except.error`. -/
def isErr {α : Type} (r : Except Err α) : Bool :=
  match r with
  | .error _ => true
  | .ok _ => false

/-- Number of network calls an operation performs: one on success, zero when
validation raised. -/
def networkCalls (r : Except Err Request) : Nat :=
  match r with
  | .ok _ => 1
  | .error _ => 0

/-- `EnvironmentRequest` pydantic model (fields after validation). -/
structure EnvironmentRequest where
  name : String
  region : String
deriving DecidableEq, Repr

/-- `EnvironmentRequest.validate_name`. -/
def EnvironmentRequest.validate_name (v : String) : Except Err String :=
  if isBlank v then .error (Err.invalidArgument "Environment name cannot be empty")
  else .ok (pyStrip v)

/-- Constructing `EnvironmentRequest(name=..., region=...)`: the `name` field
validator runs, and pydantic's schema check restricts `region` to the
`Literal["CANADA-1", "NORWAY-1"]` two-value set. -/
def mkEnvironmentRequest (name region : String) : Except Err EnvironmentRequest :=
  match EnvironmentRequest.validate_name name with
  | .error e => .error e
  | .ok n =>
    if region == "CANADA-1" || region == "NORWAY-1" then .ok ⟨n, region⟩
    else .error (Err.invalidArgument "Input should be CANADA-1 or NORWAY-1")

/-- `EnvironmentRequest.model_dump()`. -/
def EnvironmentRequest.model_dump (r : EnvironmentRequest) : List (String × JsonValue) :=
  [("name", JsonValue.str r.name), ("region", JsonValue.str r.region)]

/-- `KeypairRequest` pydantic model (fields after validation). -/
structure KeypairRequest where
  name : String
  environment_name : String
  public_key : String
deriving DecidableEq, Repr

/-- `KeypairRequest.validate_names` (applies to `name` and `environment_name`). -/
def KeypairRequest.validate_names (v : String) : Except Err String :=
  if isBlank v then .error (Err.invalidArgument "Name fields cannot be empty")
  else .ok (pyStrip v)

/-- `KeypairRequest.validate_public_key`. -/
def KeypairRequest.validate_public_key (v : String) : Except Err String :=
  if isBlank v then .error (Err.invalidArgument "Public key cannot be empty")
  else if !(pyStartswith v "ssh-rsa" || pyStartswith v "ssh-ed25519" ||
      pyStartswith v "ecdsa-sha2-nistp") then
    .error (Err.invalidArgument "Public key must be in OpenSSH format")
  else .ok (pyStrip v)

/-- Constructing `KeypairRequest(...)`: field validators run in field order. -/
def mkKeypairRequest (name environment_name public_key : String) :
    Except Err KeypairRequest :=
  match KeypairRequest.validate_names name with
  | .error e => .error e
  | .ok n =>
    match KeypairRequest.validate_names environment_name with
    | .error e => .error e
    | .ok en =>
      match KeypairRequest.validate_public_key public_key with
      | .error e => .error e
      | .ok pk => .ok ⟨n, en, pk⟩

/-- `KeypairRequest.model_dump()`. -/
def KeypairRequest.model_dump (r : KeypairRequest) : List (String × JsonValue) :=
  [("name", JsonValue.str r.name),
   ("environment_name", JsonValue.str r.environment_name),
   ("public_key", JsonValue.str r.public_key)]

/-- `VirtualMachineRequest` pydantic model (fields after validation, in the
source's declaration order). -/
structure VirtualMachineRequest where
  name : String
  environment_name : String
  image_name : String
  create_bootable_volume : Bool
  flavor_name : String
  key_name : String
  user_data : String
  assign_floating_ip : Bool
  count : Int
deriving DecidableEq, Repr

/-- `VirtualMachineRequest.validate_name`: note the length check `len(v) > 50`
is applied to the raw value `v`; trimming happens only in the returned value. -/
def VirtualMachineRequest.validate_name (v : String) : Except Err String :=
  if isBlank v then .error (Err.invalidArgument "Machine name cannot be empty")
  else if v.length > 50 then
    .error (Err.invalidArgument "Machine name cannot exceed 50 characters")
  else .ok (pyStrip v)

/-- `VirtualMachineRequest.validate_resource_names` (applies to
`environment_name`, `image_name`, `flavor_name`, `key_name`). -/
def VirtualMachineRequest.validate_resource_names (v : String) : Except Err String :=
  if isBlank v then .error (Err.invalidArgument "Resource name fields cannot be empty")
  else .ok (pyStrip v)

/-- `VirtualMachineRequest.validate_count`. -/
def VirtualMachineRequest.validate_count (v : Int) : Except Err Int :=
  if v < 1 then .error (Err.invalidArgument "Count must be at least 1")
  else .ok v

/-- Constructing `VirtualMachineRequest(...)`: field validators run in field
order (`name`, then the four resource names, then `count`). -/
def mkVirtualMachineRequest (name environment_name image_name : String)
    (create_bootable_volume : Bool) (flavor_name key_name user_data : String)
    (assign_floating_ip : Bool) (count : Int) : Except Err VirtualMachineRequest :=
  match VirtualMachineRequest.validate_name name with
  | .error e => .error e
  | .ok n =>
    match VirtualMachineRequest.validate_resource_names environment_name with
    | .error e => .error e
    | .ok en =>
      match VirtualMachineRequest.validate_resource_names image_name with
      | .error e => .error e
      | .ok im =>
        match VirtualMachineRequest.validate_resource_names flavor_name with
        | .error e => .error e
        | .ok fl =>
          match VirtualMachineRequest.validate_resource_names key_name with
          | .error e => .error e
          | .ok ky =>
            match VirtualMachineRequest.validate_count count with
            | .error e => .error e
            | .ok c =>
              .ok ⟨n, en, im, create_bootable_volume, fl, ky, user_data,
                   assign_floating_ip, c⟩

/-- `VirtualMachineRequest.model_dump()` (fields in declaration order). -/
def VirtualMachineRequest.model_dump (r : VirtualMachineRequest) :
    List (String × JsonValue) :=
  [("name", JsonValue.str r.name),
   ("environment_name", JsonValue.str r.environment_name),
   ("image_name", JsonValue.str r.image_name),
   ("create_bootable_volume", JsonValue.bool r.create_bootable_volume),
   ("flavor_name", JsonValue.str r.flavor_name),
   ("key_name", JsonValue.str r.key_name),
   ("user_data", JsonValue.str r.user_data),
   ("assign_floating_ip", JsonValue.bool r.assign_floating_ip),
   ("count", JsonValue.int r.count)]

/-- Python `or` on optional strings: an explicit `None` and the empty string
are both falsy. -/
def pyTruthy (o : Option String) : Bool :=
  match o with
  | none => false
  | some s => !(s == "")

/-- Python `a or b` for optional strings. -/
def pyOr (a b : Option String) : Option String :=
  if pyTruthy a then a else b

/-- `Hyperstack.__init__`: `self.api_key = api_key or os.environ.get("HYPERSTACK_KEY")`,
then raise `ValueError` if the result is falsy; on success the resulting key
is stored in the `api_key` header before any network activity. -/
def Hyperstack.init (api_key hyperstack_key_env : Option String) : Except Err String :=
  match pyOr api_key hyperstack_key_env with
  | none => .error (Err.invalidArgument
      "API key is required. Set HYPERSTACK_KEY environment variable or pass api_key parameter.")
  | some s =>
    if s == "" then
      .error (Err.invalidArgument
        "API key is required. Set HYPERSTACK_KEY environment variable or pass api_key parameter.")
    else .ok s

/-- `run.py` `main`, lines 324-332: the CLI resolves the API key from the
`--api-key` argument, then the `HYPERSTACK_KEY` environment variable, then
`get_api_key_from_credentials()` (the `~/.hyperstack/credentials` file, passed
here as the already-extracted optional value), and calls `parser.error` when
all three are falsy.  This happens before `run_command`, hence before any
network activity. -/
def main_resolve_api_key (cli env credentials_file : Option String) : Except Err String :=
  let k1 := if pyTruthy cli then cli else env
  let k2 := if pyTruthy k1 then k1 else credentials_file
  match k2 with
  | none => .error (Err.configError
      "API key not found. Please provide it via --api-key, HYPERSTACK_KEY environment variable, or ~/.hyperstack/credentials file.")
  | some s =>
    if s == "" then
      .error (Err.configError
        "API key not found. Please provide it via --api-key, HYPERSTACK_KEY environment variable, or ~/.hyperstack/credentials file.")
    else .ok s

/-- Modelled from the spec (section 6, credential resolution order): the first
truthy value among an ordered list of credential sources.  Used to compare the
code's resolution cascade against the spec's stated order. -/
def pyFirstTruthy : List (Option String) → Option String
  | [] => none
  | o :: rest =>
    match o with
    | none => pyFirstTruthy rest
    | some s => if s == "" then pyFirstTruthy rest else some s

/-- Query-parameter block `if x is not None: if x.strip(): params[key] = x.strip()`
shared by the `search`, `environment` and `region` parameters. -/
def addSearchParam (params : List (String × JsonValue)) (key : String)
    (v : Option String) : List (String × JsonValue) :=
  match v with
  | none => params
  | some s => if pyStrip s == "" then params else params ++ [(key, JsonValue.str (pyStrip s))]

/-- Query-parameter block `if x is not None: params[key] = x` for booleans
(`include_public`). -/
def addBoolParam (params : List (String × JsonValue)) (key : String)
    (v : Option Bool) : List (String × JsonValue) :=
  match v with
  | none => params
  | some b => params ++ [(key, JsonValue.bool b)]

/-- Query-parameter block `if page is not None: if page < 0: raise ... ;
params["page"] = page`. -/
def addPageParam (params : List (String × JsonValue)) (page : Option Int) :
    Except Err (List (String × JsonValue)) :=
  match page with
  | none => .ok params
  | some p =>
    if p < 0 then .error (Err.invalidArgument "Page number cannot be negative")
    else .ok (params ++ [("page", JsonValue.int p)])

/-- Query-parameter block for `page_size` / `per_page`: raise when the value
is below 1, otherwise add it under `key`. -/
def addSizeParam (params : List (String × JsonValue)) (key msg : String)
    (sz : Option Int) : Except Err (List (String × JsonValue)) :=
  match sz with
  | none => .ok params
  | some q =>
    if q < 1 then .error (Err.invalidArgument msg)
    else .ok (params ++ [(key, JsonValue.int q)])

/-- `Hyperstack.get_environment`. -/
def Hyperstack.get_environment (environment_id : String) : Except Err Request :=
  if isBlank environment_id then
    .error (Err.invalidArgument "Environment ID cannot be empty")
  else .ok ⟨.get, "/core/environments/" ++ pyStrip environment_id, [], none⟩

/-- `Hyperstack.list_environments`. -/
def Hyperstack.list_environments (search : Option String)
    (page page_size : Option Int) : Except Err Request :=
  let params := addSearchParam [] "search" search
  match addPageParam params page with
  | .error e => .error e
  | .ok params =>
    match addSizeParam params "pageSize" "Page size must be at least 1" page_size with
    | .error e => .error e
    | .ok params => .ok ⟨.get, "/core/environments", params, none⟩

/-- `Hyperstack.create_environment`. -/
def Hyperstack.create_environment (name region : String) : Except Err Request :=
  match mkEnvironmentRequest name region with
  | .error e => .error e
  | .ok data => .ok ⟨.post, "/core/environments", [], some data.model_dump⟩

/-- `Hyperstack.update_environment`. -/
def Hyperstack.update_environment (environment_id new_name : String) :
    Except Err Request :=
  if isBlank environment_id then
    .error (Err.invalidArgument "Environment ID cannot be empty")
  else
    let environment_id := pyStrip environment_id
    if isBlank new_name then
      .error (Err.invalidArgument "Environment name cannot be empty")
    else
      let new_name := pyStrip new_name
      if new_name.length > 50 then
        .error (Err.invalidArgument "Environment name cannot exceed 50 characters")
      else
        .ok ⟨.put, "/core/environments/" ++ environment_id, [],
             some [("name", JsonValue.str new_name)]⟩

/-- `Hyperstack.delete_environment`. -/
def Hyperstack.delete_environment (environment_id : String) : Except Err Request :=
  if isBlank environment_id then
    .error (Err.invalidArgument "Environment ID cannot be empty")
  else .ok ⟨.delete, "/core/environments/" ++ pyStrip environment_id, [], none⟩

/-- `Hyperstack.create_keypair`. -/
def Hyperstack.create_keypair (name environment_name public_key : String) :
    Except Err Request :=
  match mkKeypairRequest name environment_name public_key with
  | .error e => .error e
  | .ok data => .ok ⟨.post, "/core/keypairs", [], some data.model_dump⟩

/-- `Hyperstack.get_flavors`. -/
def Hyperstack.get_flavors : Except Err Request :=
  .ok ⟨.get, "/core/flavors", [], none⟩

/-- `Hyperstack.get_images`. -/
def Hyperstack.get_images (region : Option String) (include_public : Option Bool)
    (search : Option String) (page per_page : Option Int) : Except Err Request :=
  let params := addSearchParam [] "region" region
  let params := addBoolParam params "include_public" include_public
  let params := addSearchParam params "search" search
  match addPageParam params page with
  | .error e => .error e
  | .ok params =>
    match addSizeParam params "per_page" "Per page value must be at least 1" per_page with
    | .error e => .error e
    | .ok params => .ok ⟨.get, "/core/images", params, none⟩

/-- `Hyperstack.get_gpu_stocks`. -/
def Hyperstack.get_gpu_stocks : Except Err Request :=
  .ok ⟨.get, "/core/stocks", [], none⟩

/-- `Hyperstack.list_virtual_machines`. -/
def Hyperstack.list_virtual_machines (search environment : Option String)
    (page page_size : Option Int) : Except Err Request :=
  let params := addSearchParam [] "search" search
  let params := addSearchParam params "environment" environment
  match addPageParam params page with
  | .error e => .error e
  | .ok params =>
    match addSizeParam params "pageSize" "Page size must be at least 1" page_size with
    | .error e => .error e
    | .ok params => .ok ⟨.get, "/core/virtual-machines", params, none⟩

/-- `Hyperstack.get_virtual_machine`. -/
def Hyperstack.get_virtual_machine (vm_id : String) : Except Err Request :=
  if isBlank vm_id then
    .error (Err.invalidArgument "Virtual machine ID cannot be empty")
  else .ok ⟨.get, "/core/virtual-machines/" ++ pyStrip vm_id, [], none⟩

/-- `Hyperstack.create_virtual_machine` (parameters in the source's order). -/
def Hyperstack.create_virtual_machine (name environment_name image_name
    flavor_name key_name : String) (count : Int)
    (assign_floating_ip create_bootable_volume : Bool) (user_data : String) :
    Except Err Request :=
  match mkVirtualMachineRequest name environment_name image_name
      create_bootable_volume flavor_name key_name user_data
      assign_floating_ip count with
  | .error e => .error e
  | .ok data => .ok ⟨.post, "/core/virtual-machines", [], some data.model_dump⟩

/-- `Hyperstack._execute_vm_action`. -/
def Hyperstack.execute_vm_action (vm_id action : String) : Except Err Request :=
  if isBlank vm_id then
    .error (Err.invalidArgument "Virtual machine ID cannot be empty")
  else .ok ⟨.get, "/core/virtual-machines/" ++ pyStrip vm_id ++ "/" ++ action, [], none⟩

/-- `Hyperstack.start_virtual_machine`. -/
def Hyperstack.start_virtual_machine (vm_id : String) : Except Err Request :=
  Hyperstack.execute_vm_action vm_id "start"

/-- `Hyperstack.stop_virtual_machine`. -/
def Hyperstack.stop_virtual_machine (vm_id : String) : Except Err Request :=
  Hyperstack.execute_vm_action vm_id "stop"

/-- `Hyperstack.hard_reboot_virtual_machine`. -/
def Hyperstack.hard_reboot_virtual_machine (vm_id : String) : Except Err Request :=
  Hyperstack.execute_vm_action vm_id "hard-reboot"

/-- `Hyperstack.hibernate_virtual_machine`. -/
def Hyperstack.hibernate_virtual_machine (vm_id : String) : Except Err Request :=
  Hyperstack.execute_vm_action vm_id "hibernate"

/-- `Hyperstack.restore_hibernated_virtual_machine`. -/
def Hyperstack.restore_hibernated_virtual_machine (vm_id : String) : Except Err Request :=
  Hyperstack.execute_vm_action vm_id "hibernate-restore"

/-- `Hyperstack.delete_virtual_machine`: note it re-implements the blank check
and issues a DELETE to the bare VM path, without going through
`_execute_vm_action` and without an action suffix. -/
def Hyperstack.delete_virtual_machine (vm_id : String) : Except Err Request :=
  if isBlank vm_id then
    .error (Err.invalidArgument "Virtual machine ID cannot be empty")
  else .ok ⟨.delete, "/core/virtual-machines/" ++ pyStrip vm_id, [], none⟩

lemma pyStrip_empty : pyStrip "" = "" := rfl

lemma isBlank_eq_false_of_strip (s : String) (h : ¬ pyStrip s = "") :
    isBlank s = false := by
  have h1 : ¬ s = "" := by
    intro he
    exact h (he ▸ pyStrip_empty)
  simp [isBlank, h1, h]

lemma strip_ne_empty_of_long (s : String) (h : 50 < (pyStrip s).length) :
    ¬ pyStrip s = "" := by
  intro he
  rw [he] at h
  simp [String.length] at h

/-- C1: the machine-name validator rejects blank names, but its 50-character
length limit is applied to the raw (untrimmed) name, not to the name after
trimming as the claim states; a name of exactly 50 non-whitespace characters
passes and one of 51 non-whitespace characters is rejected. -/
theorem hyperstack_c1 :
    (∀ v : String, isBlank v = true →
      VirtualMachineRequest.validate_name v =
        .error (Err.invalidArgument "Machine name cannot be empty"))
    ∧ (∀ v : String, isBlank v = false →
        (isErr (VirtualMachineRequest.validate_name v) = true ↔ 50 < v.length))
    ∧ VirtualMachineRequest.validate_name (String.mk (List.replicate 50 'b')) =
        .ok (String.mk (List.replicate 50 'b'))
    ∧ VirtualMachineRequest.validate_name (String.mk (List.replicate 51 'b')) =
        .error (Err.invalidArgument "Machine name cannot exceed 50 characters") := by
  refine ⟨?_, ?_, ?_, ?_⟩
  · intro v h
    simp [VirtualMachineRequest.validate_name, h]
  · intro v h
    simp only [VirtualMachineRequest.validate_name, h, Bool.false_eq_true, if_false]
    split_ifs with h50
    · simpa [isErr] using h50
    · simpa [isErr] using h50
  · rfl
  · rfl

/-- C1 witness: the theorem applied at a blank name and at a short name. -/
theorem hyperstack_c1_witness :
    VirtualMachineRequest.validate_name "  " =
      .error (Err.invalidArgument "Machine name cannot be empty")
    ∧ (isErr (VirtualMachineRequest.validate_name "abc") = true ↔
        50 < ("abc" : String).length) :=
  ⟨hyperstack_c1.1 "  " (by decide), hyperstack_c1.2.1 "abc" (by decide)⟩

/-- C1 counterexample: a name of 50 `a`s followed by one space has trimmed
length 50 (not exceeding the limit) and is not blank, yet the validator
raises the length error, because the code measures `len(v)` before trimming. -/
theorem hyperstack_c1_counterexample :
    isBlank (String.mk (List.replicate 50 'a' ++ [' '])) = false
    ∧ (pyStrip (String.mk (List.replicate 50 'a' ++ [' ']))).length = 50
    ∧ VirtualMachineRequest.validate_name (String.mk (List.replicate 50 'a' ++ [' '])) =
        .error (Err.invalidArgument "Machine name cannot exceed 50 characters") :=
  ⟨by decide, by decide, rfl⟩

/-- C2: start, stop, hard-reboot, hibernate and restore all go through the
shared helper `_execute_vm_action`, which raises invalid-argument exactly on a
blank `vm_id` and otherwise issues a GET to the VM path suffixed with the
action name (`hibernate-restore` for restore); `delete_virtual_machine`
repeats the blank check itself and issues a DELETE to the bare VM path,
without any action suffix and without the helper. -/
theorem hyperstack_c2 : ∀ vm_id : String,
    Hyperstack.start_virtual_machine vm_id = Hyperstack.execute_vm_action vm_id "start"
    ∧ Hyperstack.stop_virtual_machine vm_id = Hyperstack.execute_vm_action vm_id "stop"
    ∧ Hyperstack.hard_reboot_virtual_machine vm_id =
        Hyperstack.execute_vm_action vm_id "hard-reboot"
    ∧ Hyperstack.hibernate_virtual_machine vm_id =
        Hyperstack.execute_vm_action vm_id "hibernate"
    ∧ Hyperstack.restore_hibernated_virtual_machine vm_id =
        Hyperstack.execute_vm_action vm_id "hibernate-restore"
    ∧ (∀ action : String, isErr (Hyperstack.execute_vm_action vm_id action) = isBlank vm_id)
    ∧ (∀ action : String, isBlank vm_id = false →
        Hyperstack.execute_vm_action vm_id action =
          .ok ⟨Method.get, "/core/virtual-machines/" ++ pyStrip vm_id ++ "/" ++ action,
               [], none⟩)
    ∧ isErr (Hyperstack.delete_virtual_machine vm_id) = isBlank vm_id
    ∧ (isBlank vm_id = false →
        Hyperstack.delete_virtual_machine vm_id =
          .ok ⟨Method.delete, "/core/virtual-machines/" ++ pyStrip vm_id, [], none⟩) := by
  intro vm_id
  refine ⟨rfl, rfl, rfl, rfl, rfl, ?_, ?_, ?_, ?_⟩
  · intro action
    by_cases h : isBlank vm_id <;>
      simp [Hyperstack.execute_vm_action, h, isErr]
  · intro action h
    simp [Hyperstack.execute_vm_action, h]
  · by_cases h : isBlank vm_id <;>
      simp [Hyperstack.delete_virtual_machine, h, isErr]
  · intro h
    simp [Hyperstack.delete_virtual_machine, h]

/-- C2 witness: the theorem applied at the non-blank id `vm9`. -/
theorem hyperstack_c2_witness :
    Hyperstack.execute_vm_action "vm9" "start" =
      .ok ⟨Method.get, "/core/virtual-machines/vm9/start", [], none⟩
    ∧ Hyperstack.delete_virtual_machine "vm9" =
      .ok ⟨Method.delete, "/core/virtual-machines/vm9", [], none⟩ :=
  ⟨(hyperstack_c2 "vm9").2.2.2.2.2.2.1 "start" (by decide),
   (hyperstack_c2 "vm9").2.2.2.2.2.2.2.2 (by decide)⟩

/-- C2 counterexample: `delete_virtual_machine` issues its DELETE to the bare
VM path, which does not end with `/delete`, while routing the same id through
the shared helper would produce a GET to the suffixed path; the claim that the
terminal delete goes through the helper and hits an action-suffixed path is
therefore false at `vm_id = "vm1"`. -/
theorem hyperstack_c2_counterexample :
    Hyperstack.delete_virtual_machine "vm1" =
      .ok ⟨Method.delete, "/core/virtual-machines/vm1", [], none⟩
    ∧ pyEndswith "/core/virtual-machines/vm1" "/delete" = false
    ∧ Hyperstack.execute_vm_action "vm1" "delete" =
      .ok ⟨Method.get, "/core/virtual-machines/vm1/delete", [], none⟩ :=
  ⟨rfl, by decide, rfl⟩

/-- C5: for the single-identifier operations (get/delete environment,
get/delete virtual machine, the VM actions) invalid-argument is raised exactly
when the identifier is blank and otherwise the trimmed identifier is embedded
in the path; `update_environment`, however, raises exactly when the identifier
is blank or its `new_name` is blank or longer than 50 characters after
trimming, so for it the claimed equivalence with identifier blankness alone
fails. -/
theorem hyperstack_c5 : ∀ id : String,
    isErr (Hyperstack.get_environment id) = isBlank id
    ∧ isErr (Hyperstack.delete_environment id) = isBlank id
    ∧ isErr (Hyperstack.get_virtual_machine id) = isBlank id
    ∧ isErr (Hyperstack.delete_virtual_machine id) = isBlank id
    ∧ (∀ action : String, isErr (Hyperstack.execute_vm_action id action) = isBlank id)
    ∧ (isBlank id = false →
        Hyperstack.get_environment id =
          .ok ⟨Method.get, "/core/environments/" ++ pyStrip id, [], none⟩
        ∧ Hyperstack.delete_environment id =
          .ok ⟨Method.delete, "/core/environments/" ++ pyStrip id, [], none⟩
        ∧ Hyperstack.get_virtual_machine id =
          .ok ⟨Method.get, "/core/virtual-machines/" ++ pyStrip id, [], none⟩)
    ∧ (∀ nn : String, isErr (Hyperstack.update_environment id nn) =
        (isBlank id || isBlank nn || decide (50 < (pyStrip nn).length)))
    ∧ (∀ nn : String, isBlank id = false → isBlank nn = false →
        (pyStrip nn).length ≤ 50 →
        Hyperstack.update_environment id nn =
          .ok ⟨Method.put, "/core/environments/" ++ pyStrip id, [],
               some [("name", JsonValue.str (pyStrip nn))]⟩) := by
  intro id
  refine ⟨?_, ?_, ?_, ?_, ?_, ?_, ?_, ?_⟩
  · by_cases h : isBlank id <;> simp [Hyperstack.get_environment, h, isErr]
  · by_cases h : isBlank id <;> simp [Hyperstack.delete_environment, h, isErr]
  · by_cases h : isBlank id <;> simp [Hyperstack.get_virtual_machine, h, isErr]
  · by_cases h : isBlank id <;> simp [Hyperstack.delete_virtual_machine, h, isErr]
  · intro action
    by_cases h : isBlank id <;> simp [Hyperstack.execute_vm_action, h, isErr]
  · intro h
    refine ⟨?_, ?_, ?_⟩ <;>
      simp [Hyperstack.get_environment, Hyperstack.delete_environment,
        Hyperstack.get_virtual_machine, h]
  · intro nn
    by_cases h : isBlank id
    · simp [Hyperstack.update_environment, h, isErr]
    · by_cases h2 : isBlank nn
      · simp [Hyperstack.update_environment, h, h2, isErr]
      · by_cases h3 : 50 < (pyStrip nn).length
        · simp [Hyperstack.update_environment, h, h2, h3, isErr]
        · simp [Hyperstack.update_environment, h, h2, h3, isErr]
  · intro nn h h2 h3
    have h4 : ¬ (pyStrip nn).length > 50 := by omega
    simp [Hyperstack.update_environment, h, h2, h4]

/-- C5 witness: the theorem applied at the non-blank identifier `e7` and the
valid new name `newname`. -/
theorem hyperstack_c5_witness :
    Hyperstack.get_environment "e7" =
      .ok ⟨Method.get, "/core/environments/e7", [], none⟩
    ∧ Hyperstack.update_environment "e7" "newname" =
      .ok ⟨Method.put, "/core/environments/e7", [],
           some [("name", JsonValue.str "newname")]⟩ :=
  ⟨((hyperstack_c5 "e7").2.2.2.2.2.1 (by decide)).1,
   (hyperstack_c5 "e7").2.2.2.2.2.2.2 "newname" (by decide) (by decide) (by decide)⟩

/-- C5 counterexample: `update_environment` with the perfectly good identifier
`e1` still raises invalid-argument when its `new_name` is empty, so the
claimed "raises if and only if the identifier is empty or whitespace-only"
fails for the update operation. -/
theorem hyperstack_c5_counterexample :
    isBlank "e1" = false
    ∧ Hyperstack.update_environment "e1" "" =
        .error (Err.invalidArgument "Environment name cannot be empty") :=
  ⟨by decide, rfl⟩

/-- C10: with a non-blank environment identifier, `update_environment` raises
invalid-argument whenever the trimmed `new_name` is longer than 50 characters
(the length is measured after `strip()` here), and accepts a non-blank
`new_name` whose trimmed length is at most 50, sending it trimmed as the JSON
body; a blank `new_name` is rejected for emptiness even though its trimmed
length is below the limit. -/
theorem hyperstack_c10 : ∀ environment_id new_name : String,
    (isBlank environment_id = false → 50 < (pyStrip new_name).length →
      Hyperstack.update_environment environment_id new_name =
        .error (Err.invalidArgument "Environment name cannot exceed 50 characters"))
    ∧ (isBlank environment_id = false → isBlank new_name = false →
       (pyStrip new_name).length ≤ 50 →
        Hyperstack.update_environment environment_id new_name =
          .ok ⟨Method.put, "/core/environments/" ++ pyStrip environment_id, [],
               some [("name", JsonValue.str (pyStrip new_name))]⟩) := by
  intro environment_id new_name
  constructor
  · intro h hlen
    have h2 : isBlank new_name = false :=
      isBlank_eq_false_of_strip new_name (strip_ne_empty_of_long new_name hlen)
    simp [Hyperstack.update_environment, h, h2, hlen]
  · intro h h2 h3
    have h4 : ¬ (pyStrip new_name).length > 50 := by omega
    simp [Hyperstack.update_environment, h, h2, h4]

/-- C10 witness: the theorem applied at identifier `e2`, a 51-character name
and a short name. -/
theorem hyperstack_c10_witness :
    Hyperstack.update_environment "e2" (String.mk (List.replicate 51 'a')) =
      .error (Err.invalidArgument "Environment name cannot exceed 50 characters")
    ∧ Hyperstack.update_environment "e2" "n" =
      .ok ⟨Method.put, "/core/environments/e2", [],
           some [("name", JsonValue.str "n")]⟩ :=
  ⟨(hyperstack_c10 "e2" (String.mk (List.replicate 51 'a'))).1 (by decide) (by decide),
   (hyperstack_c10 "e2" "n").2 (by decide) (by decide) (by decide)⟩

/-- C10 counterexample: a whitespace-only `new_name` has trimmed length 0,
which is at most 50, yet `update_environment` raises invalid-argument for
emptiness instead of accepting it, so the claim's unconditional "a trimmed
new_name of at most 50 characters is accepted" is false. -/
theorem hyperstack_c10_counterexample :
    (pyStrip " ").length ≤ 50
    ∧ Hyperstack.update_environment "e1" " " =
        .error (Err.invalidArgument "Environment name cannot be empty") :=
  ⟨by decide, rfl⟩

/-- C3: both the CLI key resolution (explicit `--api-key`, then the
`HYPERSTACK_KEY` environment variable, then the credentials file) and the
library constructor (explicit parameter, then environment variable) return
the first truthy source in that order, and fail with their configuration
error — producing no request — when every source is absent or empty. -/
theorem hyperstack_c3 : ∀ cli env file : Option String,
    (main_resolve_api_key cli env file =
      match pyFirstTruthy [cli, env, file] with
      | some s => Except.ok s
      | none => Except.error (Err.configError
          "API key not found. Please provide it via --api-key, HYPERSTACK_KEY environment variable, or ~/.hyperstack/credentials file."))
    ∧ (Hyperstack.init cli env =
      match pyFirstTruthy [cli, env] with
      | some s => Except.ok s
      | none => Except.error (Err.invalidArgument
          "API key is required. Set HYPERSTACK_KEY environment variable or pass api_key parameter.")) := by
  intro cli env file
  constructor
  · rcases cli with _ | a <;> rcases env with _ | b <;> rcases file with _ | c <;>
      simp [main_resolve_api_key, pyFirstTruthy, pyTruthy] <;>
      split_ifs <;> simp_all [pyFirstTruthy]
  · rcases cli with _ | a <;> rcases env with _ | b <;>
      simp [Hyperstack.init, pyOr, pyFirstTruthy, pyTruthy] <;>
      split_ifs <;> simp_all [pyFirstTruthy]

/-- C4: the keypair public-key validator raises invalid-argument on the empty
string and on any string that starts with none of `ssh-rsa`, `ssh-ed25519`,
`ecdsa-sha2-nistp`; in particular `not-a-key` is rejected with the OpenSSH
format error, and `ssh-ed25519 AAAA` passes validation. -/
theorem hyperstack_c4 :
    (∀ pk : String, pk = "" → isErr (KeypairRequest.validate_public_key pk) = true)
    ∧ (∀ pk : String, pyStartswith pk "ssh-rsa" = false →
        pyStartswith pk "ssh-ed25519" = false →
        pyStartswith pk "ecdsa-sha2-nistp" = false →
        isErr (KeypairRequest.validate_public_key pk) = true)
    ∧ KeypairRequest.validate_public_key "not-a-key" =
        .error (Err.invalidArgument "Public key must be in OpenSSH format")
    ∧ KeypairRequest.validate_public_key "ssh-ed25519 AAAA" = .ok "ssh-ed25519 AAAA" := by
  refine ⟨?_, ?_, ?_, ?_⟩
  · intro pk h
    subst h
    decide
  · intro pk h1 h2 h3
    by_cases hb : isBlank pk <;>
      simp [KeypairRequest.validate_public_key, hb, h1, h2, h3, isErr]
  · rfl
  · rfl

/-- C4 witness: the theorem applied at the empty string and at `not-a-key`. -/
theorem hyperstack_c4_witness :
    isErr (KeypairRequest.validate_public_key "") = true
    ∧ isErr (KeypairRequest.validate_public_key "not-a-key") = true :=
  ⟨hyperstack_c4.1 "" rfl,
   hyperstack_c4.2.1 "not-a-key" (by decide) (by decide) (by decide)⟩

/-- C6: for `list_environments` and `list_virtual_machines`, a page below 0
raises invalid-argument, a page size below 1 raises invalid-argument, omitted
page and page size leave the query free of `page`/`pageSize` keys (only
`search`/`environment` keys can appear), a `None` or all-whitespace search is
treated as absent, and a non-blank search is sent trimmed. -/
theorem hyperstack_c6 : ∀ (s e : Option String) (p q : Int) (po qo : Option Int),
    (p < 0 →
      Hyperstack.list_environments s (some p) qo =
        .error (Err.invalidArgument "Page number cannot be negative")
      ∧ Hyperstack.list_virtual_machines s e (some p) qo =
        .error (Err.invalidArgument "Page number cannot be negative"))
    ∧ (q < 1 →
      isErr (Hyperstack.list_environments s po (some q)) = true
      ∧ isErr (Hyperstack.list_virtual_machines s e po (some q)) = true)
    ∧ Hyperstack.list_environments s none none =
        .ok ⟨Method.get, "/core/environments", addSearchParam [] "search" s, none⟩
    ∧ Hyperstack.list_virtual_machines s e none none =
        .ok ⟨Method.get, "/core/virtual-machines",
             addSearchParam (addSearchParam [] "search" s) "environment" e, none⟩
    ∧ (∀ k, k ∈ (addSearchParam (addSearchParam [] "search" s) "environment" e).map
          Prod.fst → k = "search" ∨ k = "environment")
    ∧ addSearchParam [] "search" (none : Option String) = []
    ∧ (∀ t : String, pyStrip t = "" → addSearchParam [] "search" (some t) = [])
    ∧ (∀ t : String, ¬ pyStrip t = "" →
        addSearchParam [] "search" (some t) = [("search", JsonValue.str (pyStrip t))]) := by
  intro s e p q po qo
  refine ⟨?_, ?_, ?_, ?_, ?_, rfl, ?_, ?_⟩
  · intro hp
    constructor <;>
      simp [Hyperstack.list_environments, Hyperstack.list_virtual_machines,
        addPageParam, hp]
  · intro hq
    constructor <;>
      rcases po with _ | pv <;>
      simp [Hyperstack.list_environments, Hyperstack.list_virtual_machines,
        addPageParam, addSizeParam, hq, isErr] <;>
      split_ifs <;> simp [isErr]
  · simp [Hyperstack.list_environments, addPageParam, addSizeParam]
  · simp [Hyperstack.list_virtual_machines, addPageParam, addSizeParam]
  · intro k hk
    rcases s with _ | sv <;> rcases e with _ | ev <;>
      simp only [addSearchParam] at hk <;>
      revert hk <;> (try split_ifs) <;> simp_all
  · intro t ht
    simp [addSearchParam, ht]
  · intro t ht
    simp [addSearchParam, ht]

/-- C6 witness: the theorem applied with `page = -1`, `page_size = 0` and the
search string `"  x "`. -/
theorem hyperstack_c6_witness :
    Hyperstack.list_environments none (some (-1)) none =
      .error (Err.invalidArgument "Page number cannot be negative")
    ∧ isErr (Hyperstack.list_environments none none (some 0)) = true
    ∧ addSearchParam [] "search" (some "  x ") = [("search", JsonValue.str "x")] := by
  refine ⟨((hyperstack_c6 none none (-1) 0 none none).1 (by decide)).1,
    ((hyperstack_c6 none none (-1) 0 none none).2.1 (by decide)).1, ?_⟩
  have h := (hyperstack_c6 none none (-1) 0 none none).2.2.2.2.2.2.2 "  x " (by decide)
  simpa using h

/-- C7: constructing the environment request with a region outside the
two-value set fails (so no request is built and no network call happens),
while either of `CANADA-1` / `NORWAY-1` with a valid name succeeds and posts
the dumped model. -/
theorem hyperstack_c7 : ∀ name region : String,
    (region ≠ "CANADA-1" → region ≠ "NORWAY-1" →
      isErr (mkEnvironmentRequest name region) = true
      ∧ isErr (Hyperstack.create_environment name region) = true)
    ∧ (isBlank name = false → (region = "CANADA-1" ∨ region = "NORWAY-1") →
      mkEnvironmentRequest name region = .ok ⟨pyStrip name, region⟩
      ∧ Hyperstack.create_environment name region =
          .ok ⟨Method.post, "/core/environments", [],
               some [("name", JsonValue.str (pyStrip name)),
                     ("region", JsonValue.str region)]⟩) := by
  intro name region
  constructor
  · intro h1 h2
    by_cases hb : isBlank name <;>
      simp [mkEnvironmentRequest, Hyperstack.create_environment,
        EnvironmentRequest.validate_name, hb, h1, h2, isErr]
  · intro hb hr
    rcases hr with rfl | rfl <;>
      simp [mkEnvironmentRequest, Hyperstack.create_environment,
        EnvironmentRequest.validate_name, EnvironmentRequest.model_dump, hb]

/-- C7 witness: the theorem applied at region `EU-1` (outside the set) and at
`CANADA-1` with the valid name `n`. -/
theorem hyperstack_c7_witness :
    isErr (mkEnvironmentRequest "n" "EU-1") = true
    ∧ mkEnvironmentRequest "n" "CANADA-1" = .ok ⟨"n", "CANADA-1"⟩ :=
  ⟨((hyperstack_c7 "n" "EU-1").1 (by decide) (by decide)).1,
   by simpa using ((hyperstack_c7 "n" "CANADA-1").2 (by decide) (Or.inl rfl)).1⟩

/-- Validation condition of `VirtualMachineRequest` (the length limit measured
on the raw name, matching the source). -/
def vm_request_valid (name environment_name image_name flavor_name key_name : String)
    (count : Int) : Bool :=
  !isBlank name && decide (name.length ≤ 50) && !isBlank environment_name &&
  !isBlank image_name && !isBlank flavor_name && !isBlank key_name && decide (1 ≤ count)

/-- Validation condition of `EnvironmentRequest`. -/
def env_request_valid (name region : String) : Bool :=
  !isBlank name && (region == "CANADA-1" || region == "NORWAY-1")

/-- Validation condition of `KeypairRequest`. -/
def keypair_request_valid (name environment_name public_key : String) : Bool :=
  !isBlank name && !isBlank environment_name && !isBlank public_key &&
  (pyStartswith public_key "ssh-rsa" || pyStartswith public_key "ssh-ed25519" ||
   pyStartswith public_key "ecdsa-sha2-nistp")

/-- Validation condition of the pagination parameters of the list operations. -/
def page_query_valid (page size : Option Int) : Bool :=
  (match page with | none => true | some p => decide (0 ≤ p)) &&
  (match size with | none => true | some q => decide (1 ≤ q))

/-- Validation condition of `update_environment` (length measured after
trimming, matching the source). -/
def update_environment_valid (environment_id new_name : String) : Bool :=
  !isBlank environment_id && !isBlank new_name &&
  decide ((pyStrip new_name).length ≤ 50)

/-- C8: every client operation performs exactly one network call when its
validation passes and zero network calls when it raises invalid-argument; in
this embedding an operation's result is either the error raised synchronously
before any network activity or the single request it issues, and
`networkCalls` counts exactly one request precisely on the validity condition
of each operation. -/
theorem hyperstack_c8 : ∀ (name en im fl ky ud : String) (cnt : Int)
    (afi cbv : Bool) (eid nn vid rg pk a : String) (so eo ro : Option String)
    (ip : Option Bool) (po qo : Option Int),
    networkCalls (Hyperstack.create_virtual_machine name en im fl ky cnt afi cbv ud) =
      (if vm_request_valid name en im fl ky cnt then 1 else 0)
    ∧ networkCalls (Hyperstack.update_environment eid nn) =
      (if update_environment_valid eid nn then 1 else 0)
    ∧ networkCalls (Hyperstack.create_environment name rg) =
      (if env_request_valid name rg then 1 else 0)
    ∧ networkCalls (Hyperstack.create_keypair name en pk) =
      (if keypair_request_valid name en pk then 1 else 0)
    ∧ networkCalls (Hyperstack.get_environment eid) = (if isBlank eid then 0 else 1)
    ∧ networkCalls (Hyperstack.delete_environment eid) = (if isBlank eid then 0 else 1)
    ∧ networkCalls (Hyperstack.get_virtual_machine vid) = (if isBlank vid then 0 else 1)
    ∧ networkCalls (Hyperstack.delete_virtual_machine vid) = (if isBlank vid then 0 else 1)
    ∧ networkCalls (Hyperstack.execute_vm_action vid a) = (if isBlank vid then 0 else 1)
    ∧ networkCalls (Hyperstack.start_virtual_machine vid) = (if isBlank vid then 0 else 1)
    ∧ networkCalls (Hyperstack.list_environments so po qo) =
      (if page_query_valid po qo then 1 else 0)
    ∧ networkCalls (Hyperstack.list_virtual_machines so eo po qo) =
      (if page_query_valid po qo then 1 else 0)
    ∧ networkCalls (Hyperstack.get_images ro ip so po qo) =
      (if page_query_valid po qo then 1 else 0)
    ∧ networkCalls Hyperstack.get_flavors = 1
    ∧ networkCalls Hyperstack.get_gpu_stocks = 1 := by
  intro name en im fl ky ud cnt afi cbv eid nn vid rg pk a so eo ro ip po qo
  refine ⟨?_, ?_, ?_, ?_, ?_, ?_, ?_, ?_, ?_, ?_, ?_, ?_, ?_, rfl, rfl⟩
  · simp only [Hyperstack.create_virtual_machine, mkVirtualMachineRequest,
      VirtualMachineRequest.validate_name, VirtualMachineRequest.validate_resource_names,
      VirtualMachineRequest.validate_count, vm_request_valid]
    split_ifs <;> simp_all [networkCalls] <;> omega
  · simp only [Hyperstack.update_environment, update_environment_valid]
    split_ifs <;> simp_all [networkCalls]
    omega
  · simp only [Hyperstack.create_environment, mkEnvironmentRequest,
      EnvironmentRequest.validate_name, env_request_valid]
    split_ifs <;> simp_all [networkCalls]
  · simp only [Hyperstack.create_keypair, mkKeypairRequest,
      KeypairRequest.validate_names, KeypairRequest.validate_public_key,
      keypair_request_valid]
    split_ifs <;> simp_all [networkCalls]
  · simp only [Hyperstack.get_environment]
    split_ifs <;> simp [networkCalls]
  · simp only [Hyperstack.delete_environment]
    split_ifs <;> simp [networkCalls]
  · simp only [Hyperstack.get_virtual_machine]
    split_ifs <;> simp [networkCalls]
  · simp only [Hyperstack.delete_virtual_machine]
    split_ifs <;> simp [networkCalls]
  · simp only [Hyperstack.execute_vm_action]
    split_ifs <;> simp [networkCalls]
  · simp only [Hyperstack.start_virtual_machine, Hyperstack.execute_vm_action]
    split_ifs <;> simp [networkCalls]
  · simp only [Hyperstack.list_environments, addPageParam, addSizeParam,
      page_query_valid]
    rcases po with _ | p <;> rcases qo with _ | q <;>
      simp <;> (try split_ifs) <;> simp_all [networkCalls] <;> omega
  · simp only [Hyperstack.list_virtual_machines, addPageParam, addSizeParam,
      page_query_valid]
    rcases po with _ | p <;> rcases qo with _ | q <;>
      simp <;> (try split_ifs) <;> simp_all [networkCalls] <;> omega
  · simp only [Hyperstack.get_images, addPageParam, addSizeParam,
      page_query_valid]
    rcases po with _ | p <;> rcases qo with _ | q <;>
      simp <;> (try split_ifs) <;> simp_all [networkCalls] <;> omega

/-- C9: every name-class field validator rejects an empty or all-whitespace
value with an invalid-argument error, accepts any other value trimmed, and the
trimmed values are the ones placed in the JSON bodies of the create
operations. -/
theorem hyperstack_c9 :
    (∀ v : String, isBlank v = true →
      EnvironmentRequest.validate_name v =
        .error (Err.invalidArgument "Environment name cannot be empty")
      ∧ KeypairRequest.validate_names v =
        .error (Err.invalidArgument "Name fields cannot be empty")
      ∧ VirtualMachineRequest.validate_resource_names v =
        .error (Err.invalidArgument "Resource name fields cannot be empty")
      ∧ VirtualMachineRequest.validate_name v =
        .error (Err.invalidArgument "Machine name cannot be empty"))
    ∧ (∀ v : String, isBlank v = false →
      EnvironmentRequest.validate_name v = .ok (pyStrip v)
      ∧ KeypairRequest.validate_names v = .ok (pyStrip v)
      ∧ VirtualMachineRequest.validate_resource_names v = .ok (pyStrip v))
    ∧ (∀ (n en im fl ky ud : String) (cnt : Int) (afi cbv : Bool),
        isBlank n = false → n.length ≤ 50 → isBlank en = false →
        isBlank im = false → isBlank fl = false → isBlank ky = false → 1 ≤ cnt →
        Hyperstack.create_virtual_machine n en im fl ky cnt afi cbv ud =
          .ok ⟨Method.post, "/core/virtual-machines", [],
               some (VirtualMachineRequest.model_dump
                 ⟨pyStrip n, pyStrip en, pyStrip im, cbv, pyStrip fl, pyStrip ky,
                  ud, afi, cnt⟩)⟩)
    ∧ (∀ n en pk : String, isBlank n = false → isBlank en = false →
        isBlank pk = false →
        (pyStartswith pk "ssh-rsa" || pyStartswith pk "ssh-ed25519" ||
         pyStartswith pk "ecdsa-sha2-nistp") = true →
        Hyperstack.create_keypair n en pk =
          .ok ⟨Method.post, "/core/keypairs", [],
               some [("name", JsonValue.str (pyStrip n)),
                     ("environment_name", JsonValue.str (pyStrip en)),
                     ("public_key", JsonValue.str (pyStrip pk))]⟩) := by
  refine ⟨?_, ?_, ?_, ?_⟩
  · intro v h
    refine ⟨?_, ?_, ?_, ?_⟩ <;>
      simp [EnvironmentRequest.validate_name, KeypairRequest.validate_names,
        VirtualMachineRequest.validate_resource_names,
        VirtualMachineRequest.validate_name, h]
  · intro v h
    refine ⟨?_, ?_, ?_⟩ <;>
      simp [EnvironmentRequest.validate_name, KeypairRequest.validate_names,
        VirtualMachineRequest.validate_resource_names, h]
  · intro n en im fl ky ud cnt afi cbv hn hlen hen him hfl hky hcnt
    have h50 : ¬ n.length > 50 := by omega
    have hc : ¬ cnt < 1 := by omega
    simp [Hyperstack.create_virtual_machine, mkVirtualMachineRequest,
      VirtualMachineRequest.validate_name,
      VirtualMachineRequest.validate_resource_names,
      VirtualMachineRequest.validate_count, hn, h50, hen, him, hfl, hky, hc]
  · intro n en pk hn hen hpk hstart
    simp [Hyperstack.create_keypair, mkKeypairRequest,
      KeypairRequest.validate_names, KeypairRequest.validate_public_key,
      KeypairRequest.model_dump, hn, hen, hpk, hstart]

/-- C9 witness: the theorem applied at blank, padded and valid concrete
field values. -/
theorem hyperstack_c9_witness :
    KeypairRequest.validate_names " \t" =
      .error (Err.invalidArgument "Name fields cannot be empty")
    ∧ VirtualMachineRequest.validate_resource_names " img " = .ok "img"
    ∧ Hyperstack.create_keypair " kp " "env1" "ssh-rsa AAAA" =
      .ok ⟨Method.post, "/core/keypairs", [],
           some [("name", JsonValue.str "kp"),
                 ("environment_name", JsonValue.str "env1"),
                 ("public_key", JsonValue.str "ssh-rsa AAAA")]⟩ := by
  refine ⟨(hyperstack_c9.1 " \t" (by decide)).2.1, ?_, ?_⟩
  · have h := (hyperstack_c9.2.1 " img " (by decide)).2.2
    simpa using h
  · have h := hyperstack_c9.2.2.2 " kp " "env1" "ssh-rsa AAAA"
      (by decide) (by decide) (by decide) (by decide)
    simpa using h
